import Mathlib

/-!
# Verification of the solar plant efficiency analyzer

A shallow embedding of `app.py`: the CSV-backed data model, the
`pd.merge`-based efficiency computation (lines 42-51), the chart
construction (lines 55-88) and the paginated PDF report builder
(lines 91-153), together with theorems checking the specification's
claims against it.

Numbers are modelled as exact rationals (`ℚ`); the IEEE non-finite
values that pandas/numpy produce on division by zero are modelled
explicitly by `PyFloat`.
-/

/-- A cell of a parsed CSV table: either a string (e.g. a month label)
or a numeric value. -/
inductive Cell where
  | str (s : String)
  | num (q : ℚ)
deriving DecidableEq, Repr

/-- A row of a parsed table: an association list from column names to
cells, as produced by `pd.read_csv` for one line. -/
abbrev Row : Type := List (String × Cell)

/-- A parsed table (the model of a `pandas.DataFrame` as loaded from a
CSV): a header naming the columns, and the data rows. -/
structure Table where
  header : List String
  rows : List Row
deriving DecidableEq

/-- Access the cell of a row under a column name: the model of scalar
column access within a `DataFrame` row. -/
def getCell : Row → String → Option Cell
  | [], _ => none
  | (k, v) :: r, c => if k = c then some v else getCell r c

/-- The `Month` cell of a row (the join key of `pd.merge(..., on="Month")`). -/
def rowMonth (r : Row) : Option Cell := getCell r "Month"

/-- Drop the `Month` column from a row: `pd.merge` keeps a single copy
of the join key (taken from the left frame). -/
def removeMonth (r : Row) : Row := r.filter (fun p => p.1 ≠ "Month")

/-- The `Month` column of a table, in row order. -/
def tableMonths (t : Table) : List (Option Cell) := t.rows.map rowMonth

/-- `pd.merge(irradiance_df, generation_df, on="Month")` (line 45):
an inner join on the `Month` value.  For each left row, in left order,
one output row per matching right row, in right order; the output row
carries the left row's columns followed by the right row's non-key
columns. -/
def rawMerge (t1 t2 : Table) : List Row :=
  t1.rows.flatMap (fun r1 =>
    (t2.rows.filter (fun r2 => rowMonth r2 = rowMonth r1)).map
      (fun r2 => r1 ++ removeMonth r2))

/-- The header of the merged frame: left columns, then the right
columns other than the join key. -/
def mergedHeader (t1 t2 : Table) : List String :=
  t1.header ++ (t2.header.filter (fun c => c ≠ "Month"))

/-- A Python/numpy floating-point value restricted to what the pipeline
can produce: a finite value (modelled exactly as a rational), `inf`,
`-inf`, or `nan`. -/
inductive PyFloat where
  | finite (q : ℚ)
  | posInf
  | negInf
  | nan
deriving DecidableEq, Repr

/-- IEEE-754 division of two finite values, as performed by
pandas/numpy on Series and scalars: division by zero yields a signed
infinity (or `nan` for `0/0`) instead of raising. -/
def pyDiv (a b : ℚ) : PyFloat :=
  if b ≠ 0 then .finite (a / b)
  else if 0 < a then .posInf
  else if a < 0 then .negInf
  else .nan

/-- IEEE-754 multiplication of a possibly non-finite value by a finite
constant (used for the `* 100` scalings in lines 47 and 51). -/
def pyMulC : PyFloat → ℚ → PyFloat
  | .finite q, c => .finite (q * c)
  | .posInf, c => if 0 < c then .posInf else if c < 0 then .negInf else .nan
  | .negInf, c => if 0 < c then .negInf else if c < 0 then .posInf else .nan
  | .nan, _ => .nan

/-- IEEE-754 division of a possibly non-finite value by a nonzero
finite constant (used for `MonthlyEfficiency / 100` in line 62). -/
def pyDivC : PyFloat → ℚ → PyFloat
  | .finite q, c => .finite (q / c)
  | .posInf, c => if 0 < c then .posInf else if c < 0 then .negInf else .nan
  | .negInf, c => if 0 < c then .negInf else if c < 0 then .posInf else .nan
  | .nan, _ => .nan

/-- `np.clip(x, 0, 1)` (line 62): clamps finite values into `[0, 1]`,
maps the infinities to the nearer bound, and propagates `nan`. -/
def npClip01 : PyFloat → PyFloat
  | .finite q => .finite (min 1 (max 0 q))
  | .posInf => .finite 1
  | .negInf => .finite 0
  | .nan => .nan

/-- The sidebar configuration (lines 14-27): plant metadata and panel
parameters. -/
structure PanelConfig where
  plantName : String
  projectCode : String
  address : String
  panelPower : ℚ
  efficiency : ℚ
  numPanels : ℚ
  length : ℚ
  width : ℚ
deriving DecidableEq

/-- `panel_area = length * width` (line 29). -/
def panel_area (cfg : PanelConfig) : ℚ := cfg.length * cfg.width

/-- A merged row after numeric extraction: the `Month`, `Irradiance`
and `ActualGeneration` cells of one row of the merged frame. -/
structure SrcRow where
  month : Cell
  irradiance : ℚ
  actualGeneration : ℚ
deriving DecidableEq

/-- A fully derived row of the merged frame, after the column
assignments of lines 46-47. -/
structure MergedRow where
  month : Cell
  irradiance : ℚ
  actualGeneration : ℚ
  expectedGeneration : ℚ
  monthlyEfficiency : PyFloat
deriving DecidableEq

/-- Lines 46-47:
`df["ExpectedGeneration"] = (efficiency / 100) * num_panels * panel_area * df["Irradiance"]` and
`df["MonthlyEfficiency"] = (df["ActualGeneration"] / df["ExpectedGeneration"]) * 100`,
element-wise over the merged rows. -/
def computeRows (cfg : PanelConfig) (src : List SrcRow) : List MergedRow :=
  src.map (fun s =>
    let e := (cfg.efficiency / 100) * cfg.numPanels * panel_area cfg * s.irradiance
    { month := s.month
      irradiance := s.irradiance
      actualGeneration := s.actualGeneration
      expectedGeneration := e
      monthlyEfficiency := pyMulC (pyDiv s.actualGeneration e) 100 })

/-- The aggregate metrics of lines 49-51. -/
structure Totals where
  totalExpected : ℚ
  totalActual : ℚ
  overallEff : PyFloat
deriving DecidableEq

/-- Lines 49-51: `total_expected = df["ExpectedGeneration"].sum()`,
`total_actual = df["ActualGeneration"].sum()`,
`overall_eff = (total_actual / total_expected) * 100`. -/
def mkTotals (rows : List MergedRow) : Totals :=
  let te := (rows.map (fun r => r.expectedGeneration)).sum
  let ta := (rows.map (fun r => r.actualGeneration)).sum
  { totalExpected := te
    totalActual := ta
    overallEff := pyMulC (pyDiv ta te) 100 }

/-- One bar pair of the generation chart (lines 58-63): the expected
bar is a fixed dark blue; the actual bar's colour is
`RdYlGn_r(np.clip(MonthlyEfficiency / 100, 0, 1))`, recorded here by
its colormap key. -/
structure Bar where
  month : Cell
  expected : ℚ
  actual : ℚ
  actualColorKey : PyFloat
deriving DecidableEq

/-- The colormap key of one actual-generation bar (line 62). -/
def mkBar (r : MergedRow) : Bar :=
  { month := r.month
    expected := r.expectedGeneration
    actual := r.actualGeneration
    actualColorKey := npClip01 (pyDivC r.monthlyEfficiency 100) }

/-- The generation comparison chart: one bar pair per merged row, in
frame order (the `df.iterrows()` loop of lines 61-63). -/
def genChart (rows : List MergedRow) : List Bar := rows.map mkBar

/-- The monthly efficiency chart (line 82): the `(Month,
MonthlyEfficiency)` series in frame order. -/
def effChart (rows : List MergedRow) : List (Cell × PyFloat) :=
  rows.map (fun r => (r.month, r.monthlyEfficiency))

/-- A4 page height in points: `reportlab` defines A4 as 210mm x 297mm
with 72 points per inch, so the height is `297 * 72 / 25.4 = 106920/127`. -/
def A4height : ℚ := 106920 / 127

/-- The vertical cursor position at which the first table row is
drawn: `height - 40` (line 95) minus the decrements of lines 96-131
(title, metadata block, panel block, totals block, table header and
rule). -/
def tableStartY : ℚ :=
  A4height - 40 - 30 - 15 - 15 - 30 - 15 - 15 - 15 - 30 - 15 - 15 - 30 - 20 - 15 - 10

/-- The cursor position after `c.showPage()`: `height - 50` (line 139). -/
def pageResetY : ℚ := A4height - 50

/-- The state of the table-drawing loop: the pages already closed by
`c.showPage()`, the rows drawn on the current page, and the vertical
cursor. -/
structure TState where
  donePages : List (List MergedRow)
  curPage : List MergedRow
  y : ℚ
deriving DecidableEq

/-- One iteration of the loop of lines 133-139: draw the row on the
current page, move the cursor down 15 points, and if it fell below 100
points start a new page with the cursor reset to `height - 50`. -/
def tableStep (s : TState) (r : MergedRow) : TState :=
  let cur := s.curPage ++ [r]
  let y := s.y - 15
  if y < 100 then
    { donePages := s.donePages ++ [cur], curPage := [], y := pageResetY }
  else
    { donePages := s.donePages, curPage := cur, y := y }

/-- Run the whole table loop from the cursor position reached after
the header blocks. -/
def tableRun (rows : List MergedRow) : TState :=
  rows.foldl tableStep { donePages := [], curPage := [], y := tableStartY }

/-- The pages of the report's table section: the pages closed by
`c.showPage()` followed by the page left open when the loop ends
(which subsequently receives the chart images and is flushed by
`c.save()`). -/
def tablePages (rows : List MergedRow) : List (List MergedRow) :=
  let s := tableRun rows
  s.donePages ++ [s.curPage]

/-- The finished report: the metadata echoed on page one, the
aggregate totals, the merged rows, the paginated table and the two
embedded charts. -/
structure Report where
  cfg : PanelConfig
  panelArea : ℚ
  totals : Totals
  rows : List MergedRow
  pages : List (List MergedRow)
  generationChart : List Bar
  efficiencyChart : List (Cell × PyFloat)
deriving DecidableEq

/-- Assemble the report from the derived rows (lines 91-153). -/
def mkReport (cfg : PanelConfig) (rows : List MergedRow) : Report :=
  { cfg := cfg
    panelArea := panel_area cfg
    totals := mkTotals rows
    rows := rows
    pages := tablePages rows
    generationChart := genChart rows
    efficiencyChart := effChart rows }

/-- The failures the script can surface: the explicit `Month` check of
lines 42-43, a `KeyError` from accessing an absent column (caught by
the broad `except` of lines 164-165), and malformed cell data. -/
inductive PErr where
  | missingMonth
  | keyError (col : String)
  | badData
deriving DecidableEq, Repr

/-- The load stage (lines 39-43): both CSVs parse, then both must
contain a `Month` column; this is the only validation performed before
the computation starts. -/
def loadStage (t1 t2 : Table) : Except PErr Unit :=
  if "Month" ∈ t1.header ∧ "Month" ∈ t2.header then .ok () else .error .missingMonth

/-- Extract the typed contents of one merged row; `none` models a
missing or non-numeric cell surfacing as an exception later. -/
def extractSrcRow (r : Row) : Option SrcRow :=
  match rowMonth r, getCell r "Irradiance", getCell r "ActualGeneration" with
  | some m, some (Cell.num i), some (Cell.num a) => some { month := m, irradiance := i, actualGeneration := a }
  | _, _, _ => none

/-- Extract every merged row, failing if any row is malformed. -/
def extractAll : List Row → Option (List SrcRow)
  | [] => some []
  | r :: rs =>
    match extractSrcRow r, extractAll rs with
    | some s, some ss => some (s :: ss)
    | _, _ => none

/-- The whole pipeline for one button press (lines 36-162): load and
check `Month`, merge, access the `Irradiance` column (line 46, raising
`KeyError` if absent) and the `ActualGeneration` column (line 47,
likewise), derive the rows and totals, and build the charts and the
report.  There is no other validation: an empty merge and zero
divisors flow through the arithmetic. -/
def runPipeline (cfg : PanelConfig) (t1 t2 : Table) : Except PErr Report :=
  if "Month" ∈ t1.header ∧ "Month" ∈ t2.header then
    if "Irradiance" ∈ mergedHeader t1 t2 then
      if "ActualGeneration" ∈ mergedHeader t1 t2 then
        match extractAll (rawMerge t1 t2) with
        | some src => .ok (mkReport cfg (computeRows cfg src))
        | none => .error .badData
      else .error (.keyError "ActualGeneration")
    else .error (.keyError "Irradiance")
  else .error .missingMonth

/-- The error component of a pipeline outcome, if any. -/
def errOf {α : Type} : Except PErr α → Option PErr
  | .error e => some e
  | .ok _ => none

/-! ## Concrete inputs: the specification's scenario -/

/-- The spec scenario configuration: efficiency 18%, 10 panels,
1.6 m x 1.0 m panels. -/
def exCfg : PanelConfig :=
  { plantName := "Demo Plant", projectCode := "P-01", address := "Nowhere 1"
    panelPower := 400, efficiency := 18, numPanels := 10, length := 16/10, width := 1 }

/-- The spec scenario's merged typed rows: Jan irradiance 150 / actual
500, Feb irradiance 160 / actual 520. -/
def specSrc : List SrcRow :=
  [ { month := .str "Jan", irradiance := 150, actualGeneration := 500 },
    { month := .str "Feb", irradiance := 160, actualGeneration := 520 } ]

/-- The spec scenario's irradiance CSV. -/
def specIrrT : Table :=
  { header := ["Month", "Irradiance"]
    rows := [ [("Month", .str "Jan"), ("Irradiance", .num 150)],
              [("Month", .str "Feb"), ("Irradiance", .num 160)] ] }

/-- The spec scenario's generation CSV. -/
def specGenT : Table :=
  { header := ["Month", "ActualGeneration"]
    rows := [ [("Month", .str "Jan"), ("ActualGeneration", .num 500)],
              [("Month", .str "Feb"), ("ActualGeneration", .num 520)] ] }

/-- A plain merged row used as a generic witness input. -/
def wRow : MergedRow :=
  { month := .str "Jan", irradiance := 150, actualGeneration := 2,
    expectedGeneration := 1, monthlyEfficiency := .finite 200 }

/-- An irradiance CSV whose single month has irradiance 0 (a zero
divisor for the monthly efficiency). -/
def zIrrT : Table :=
  { header := ["Month", "Irradiance"]
    rows := [ [("Month", .str "Jan"), ("Irradiance", .num 0)] ] }

/-- A generation CSV for the same single month. -/
def zGenT : Table :=
  { header := ["Month", "ActualGeneration"]
    rows := [ [("Month", .str "Jan"), ("ActualGeneration", .num 500)] ] }

/-- A generation CSV whose month does not occur in `zIrrT`, so the
inner join with it is empty. -/
def disjGenT : Table :=
  { header := ["Month", "ActualGeneration"]
    rows := [ [("Month", .str "Feb"), ("ActualGeneration", .num 500)] ] }

/-- A generation CSV that lacks the `ActualGeneration` column (but has
`Month`). -/
def noActGenT : Table :=
  { header := ["Month", "Generation"]
    rows := [ [("Month", .str "Jan"), ("Generation", .num 500)] ] }

/-! ## Pagination helper lemmas -/

theorem tableStep_flatten (s : TState) (r : MergedRow) :
    (tableStep s r).donePages.flatten ++ (tableStep s r).curPage =
      s.donePages.flatten ++ s.curPage ++ [r] := by
  simp only [tableStep]
  split_ifs <;> simp

theorem tableRun_flatten_aux (rows : List MergedRow) :
    ∀ s : TState,
      (rows.foldl tableStep s).donePages.flatten ++ (rows.foldl tableStep s).curPage =
        s.donePages.flatten ++ s.curPage ++ rows := by
  induction rows with
  | nil => intro s; simp
  | cons r rs ih =>
    intro s
    rw [List.foldl_cons, ih (tableStep s r), tableStep_flatten]
    simp

/-- Every merged row lands on exactly one page, in order: flattening
the table pages recovers the row list. -/
theorem tablePages_flatten (rows : List MergedRow) :
    (tablePages rows).flatten = rows := by
  have h := tableRun_flatten_aux rows { donePages := [], curPage := [], y := tableStartY }
  simpa [tablePages, tableRun] using h

/-! ## Claim theorems -/

/-- **C1**: every row produced by the efficiency computation has
`expectedGeneration = (efficiencyPercent/100) * panelCount *
(lengthMeters * widthMeters) * irradiance` (exactly, in the rational
model, hence within any relative tolerance); and on the spec's
scenario the expected generations are 432 for Jan and 460.8 for Feb. -/
theorem C1_expected_generation_formula (cfg : PanelConfig) (src : List SrcRow)
    (r : MergedRow) (h : r ∈ computeRows cfg src) :
    r.expectedGeneration =
      (cfg.efficiency / 100) * cfg.numPanels * (cfg.length * cfg.width) * r.irradiance ∧
    (computeRows exCfg specSrc).map (fun x => x.expectedGeneration) = [432, 2304/5] := by
  constructor
  · obtain ⟨s, _, rfl⟩ := List.mem_map.mp h
    simp [computeRows, panel_area]
  · simp [computeRows, exCfg, specSrc, panel_area]
    norm_num

/-- Witness for C1 at the spec scenario's Jan row. -/
theorem C1_expected_generation_formula_witness :
    ({ month := .str "Jan", irradiance := 150, actualGeneration := 500,
       expectedGeneration := 432, monthlyEfficiency := .finite (3125/27) } :
        MergedRow).expectedGeneration =
      (exCfg.efficiency / 100) * exCfg.numPanels * (exCfg.length * exCfg.width) * 150 ∧
    (computeRows exCfg specSrc).map (fun x => x.expectedGeneration) = [432, 2304/5] :=
  C1_expected_generation_formula exCfg specSrc _
    (by simp [computeRows, exCfg, specSrc, panel_area, pyDiv, pyMulC]; norm_num)

/-- **C4**: the totals are the sums of the per-row expected and actual
generations, and (whenever the divisor is nonzero) the overall
efficiency is `100 * totalActual / totalExpected`. -/
theorem C4_aggregate_totals (rows : List MergedRow)
    (h : (mkTotals rows).totalExpected ≠ 0) :
    (mkTotals rows).totalExpected = (rows.map (fun r => r.expectedGeneration)).sum ∧
    (mkTotals rows).totalActual = (rows.map (fun r => r.actualGeneration)).sum ∧
    (mkTotals rows).overallEff =
      .finite (100 * (rows.map (fun r => r.actualGeneration)).sum /
        (rows.map (fun r => r.expectedGeneration)).sum) := by
  refine ⟨rfl, rfl, ?_⟩
  have h' : (rows.map (fun r => r.expectedGeneration)).sum ≠ 0 := h
  simp only [mkTotals, pyDiv, pyMulC, h', if_pos, ne_eq, not_false_iff, if_true]
  ring_nf

/-- Witness for C4 on a one-row dataset with expected 1, actual 2. -/
theorem C4_aggregate_totals_witness :
    (mkTotals [wRow]).totalExpected = ([wRow].map (fun r => r.expectedGeneration)).sum ∧
    (mkTotals [wRow]).totalActual = ([wRow].map (fun r => r.actualGeneration)).sum ∧
    (mkTotals [wRow]).overallEff =
      .finite (100 * ([wRow].map (fun r => r.actualGeneration)).sum /
        ([wRow].map (fun r => r.expectedGeneration)).sum) :=
  C4_aggregate_totals _ (by simp [mkTotals, wRow])

theorem tableStep_firstPage_inv (s : TState) (r : MergedRow)
    (h : s.donePages = [] → s.y = tableStartY - 15 * s.curPage.length ∧ 100 ≤ s.y) :
    (tableStep s r).donePages = [] →
      (tableStep s r).y = tableStartY - 15 * (tableStep s r).curPage.length ∧
      100 ≤ (tableStep s r).y := by
  simp only [tableStep]
  split_ifs with hy
  · intro hd
    exact absurd hd (by simp)
  · intro hd
    simp only at hd ⊢
    obtain ⟨hyeq, -⟩ := h hd
    refine ⟨?_, ?_⟩
    · rw [hyeq]
      push_cast [List.length_append, List.length_singleton]
      ring
    · linarith [not_lt.mp hy]

theorem tableRun_firstPage_inv (rows : List MergedRow) :
    ∀ s : TState,
      (s.donePages = [] → s.y = tableStartY - 15 * s.curPage.length ∧ 100 ≤ s.y) →
      ((rows.foldl tableStep s).donePages = [] →
        (rows.foldl tableStep s).y =
          tableStartY - 15 * (rows.foldl tableStep s).curPage.length ∧
        100 ≤ (rows.foldl tableStep s).y) := by
  induction rows with
  | nil => intro s h; exact h
  | cons r rs ih =>
    intro s h
    rw [List.foldl_cons]
    exact ih (tableStep s r) (tableStep_firstPage_inv s r h)

/-- If the table loop never called `showPage`, at most 28 rows were
drawn: the 29th row would push the cursor below the 100pt margin. -/
theorem tableRun_one_page_cap (rows : List MergedRow)
    (hd : (tableRun rows).donePages = []) : rows.length ≤ 28 := by
  have hinv := tableRun_firstPage_inv rows
    { donePages := [], curPage := [], y := tableStartY }
    (by
      intro _
      constructor
      · simp
      · norm_num [tableStartY, A4height])
  have hflat := tableRun_flatten_aux rows
    { donePages := [], curPage := [], y := tableStartY }
  simp only [tableRun] at hd
  obtain ⟨hyeq, hyge⟩ := hinv hd
  rw [hd] at hflat
  simp only [List.flatten_nil, List.nil_append] at hflat
  have hcur : (List.foldl tableStep
      { donePages := [], curPage := [], y := tableStartY } rows).curPage = rows := hflat
  rw [hyeq, hcur] at hyge
  by_contra hgt
  push_neg at hgt
  have h29 : (29 : ℚ) ≤ (rows.length : ℚ) := by exact_mod_cast hgt
  rw [tableStartY, A4height] at hyge
  linarith

/-- **C7**: the table pages partition the merged rows — flattening the
pages in order recovers every row exactly once — and any row set that
exceeds the first page's capacity (29 rows) spans more than one page. -/
theorem C7_table_pagination (rows : List MergedRow) :
    (tablePages rows).flatten = rows ∧
    (30 ≤ rows.length → 2 ≤ (tablePages rows).length) := by
  refine ⟨tablePages_flatten rows, fun h30 => ?_⟩
  by_cases hd : (tableRun rows).donePages = []
  · have := tableRun_one_page_cap rows hd
    omega
  · have hpos : 1 ≤ (tableRun rows).donePages.length :=
      List.length_pos.mpr hd
    simp only [tablePages, List.length_append, List.length_singleton]
    omega

/-- Witness for C7 at a 30-row input. -/
theorem C7_table_pagination_witness :
    (tablePages (List.replicate 30 wRow)).flatten = List.replicate 30 wRow ∧
    2 ≤ (tablePages (List.replicate 30 wRow)).length :=
  ⟨(C7_table_pagination _).1, (C7_table_pagination _).2 (by simp)⟩

/-- **C2 (amended)**: a merged row with `expectedGeneration = 0` does
not raise any error; its monthly efficiency is the IEEE quotient —
`+inf` for positive actual generation, `-inf` for negative, `nan` for
zero — and the row still reaches the report's table pages. -/
theorem C2_zero_divisor_reaches_report (cfg : PanelConfig) (src : List SrcRow)
    (r : MergedRow) (h : r ∈ computeRows cfg src) (hz : r.expectedGeneration = 0) :
    (0 < r.actualGeneration → r.monthlyEfficiency = .posInf) ∧
    (r.actualGeneration < 0 → r.monthlyEfficiency = .negInf) ∧
    (r.actualGeneration = 0 → r.monthlyEfficiency = .nan) ∧
    r ∈ (tablePages (computeRows cfg src)).flatten := by
  have hmem : r ∈ (tablePages (computeRows cfg src)).flatten := by
    rw [tablePages_flatten]; exact h
  simp only [computeRows, List.mem_map] at h
  obtain ⟨s, -, rfl⟩ := h
  simp only at hz hmem ⊢
  refine ⟨fun ha => ?_, fun ha => ?_, fun ha => ?_, hmem⟩
  · simp only at ha
    simp [pyDiv, pyMulC, hz, ha, show (0:ℚ) < 100 by norm_num]
  · simp only at ha
    simp [pyDiv, pyMulC, hz, ha, not_lt.mpr ha.le, show (0:ℚ) < 100 by norm_num]
  · simp only at ha
    simp [pyDiv, pyMulC, hz, ha]


/-- Witness for C2 (amended): a Jan row with irradiance 0 gives
expected 0 and an infinite monthly efficiency that is still paginated. -/
theorem C2_zero_divisor_reaches_report_witness :
    ((0:ℚ) < 500 →
      ({ month := .str "Jan", irradiance := 0, actualGeneration := 500,
         expectedGeneration := 0, monthlyEfficiency := .posInf } :
        MergedRow).monthlyEfficiency = .posInf) ∧
    ((500:ℚ) < 0 →
      ({ month := .str "Jan", irradiance := 0, actualGeneration := 500,
         expectedGeneration := 0, monthlyEfficiency := .posInf } :
        MergedRow).monthlyEfficiency = .negInf) ∧
    ((500:ℚ) = 0 →
      ({ month := .str "Jan", irradiance := 0, actualGeneration := 500,
         expectedGeneration := 0, monthlyEfficiency := .posInf } :
        MergedRow).monthlyEfficiency = .nan) ∧
    ({ month := .str "Jan", irradiance := 0, actualGeneration := 500,
       expectedGeneration := 0, monthlyEfficiency := .posInf } : MergedRow) ∈
      (tablePages (computeRows exCfg
        [{ month := .str "Jan", irradiance := 0, actualGeneration := 500 }])).flatten :=
  C2_zero_divisor_reaches_report exCfg
    [{ month := .str "Jan", irradiance := 0, actualGeneration := 500 }]
    { month := .str "Jan", irradiance := 0, actualGeneration := 500,
      expectedGeneration := 0, monthlyEfficiency := .posInf }
    (by norm_num [computeRows, exCfg, panel_area, pyDiv, pyMulC]) rfl

/-- **C2 (counterexample to the claim as stated)**: with the spec's
panel configuration and a January irradiance of 0, the pipeline does
not fail — it returns a report whose table contains a row with
monthly efficiency `+inf`. -/
theorem C2_counterexample :
    errOf (runPipeline exCfg zIrrT zGenT) = none ∧
    (runPipeline exCfg zIrrT zGenT).toOption.map
        (fun rep => rep.pages.flatten.map (fun r => r.monthlyEfficiency)) =
      some [PyFloat.posInf] := by
  have hrun : runPipeline exCfg zIrrT zGenT =
      .ok (mkReport exCfg (computeRows exCfg
        [{ month := .str "Jan", irradiance := 0, actualGeneration := 500 }])) := by
    norm_num +decide [runPipeline, zIrrT, zGenT, mergedHeader, rawMerge, rowMonth, getCell,
      removeMonth, extractAll, extractSrcRow]
  have hrows : computeRows exCfg
      [{ month := .str "Jan", irradiance := 0, actualGeneration := 500 }] =
      [{ month := .str "Jan", irradiance := 0, actualGeneration := 500,
         expectedGeneration := 0, monthlyEfficiency := .posInf }] := by
    norm_num [computeRows, exCfg, panel_area, pyDiv, pyMulC]
  have hp : tablePages
      [{ month := .str "Jan", irradiance := 0, actualGeneration := 500,
         expectedGeneration := 0, monthlyEfficiency := .posInf }] =
      [[{ month := .str "Jan", irradiance := 0, actualGeneration := 500,
          expectedGeneration := 0, monthlyEfficiency := .posInf }]] := by
    norm_num [tablePages, tableRun, tableStep, tableStartY, A4height, pageResetY]
  rw [hrun, hrows]
  refine ⟨rfl, ?_⟩
  show some ((mkReport exCfg
      [{ month := .str "Jan", irradiance := 0, actualGeneration := 500,
         expectedGeneration := 0, monthlyEfficiency := .posInf }]).pages.flatten.map
        (fun r => r.monthlyEfficiency)) =
    some [PyFloat.posInf]
  rw [mkReport]
  rw [hp]
  simp

/-- **C6 (amended)**: an empty inner join does not raise any error.
With both `Month` columns present and the two value columns available,
the pipeline returns a report over zero rows whose totals are both 0
and whose overall efficiency is the IEEE quotient `0/0 = nan`. -/
theorem C6_empty_join_no_error (cfg : PanelConfig) (t1 t2 : Table)
    (h1 : "Month" ∈ t1.header) (h2 : "Month" ∈ t2.header)
    (h3 : "Irradiance" ∈ mergedHeader t1 t2)
    (h4 : "ActualGeneration" ∈ mergedHeader t1 t2)
    (hj : rawMerge t1 t2 = []) :
    runPipeline cfg t1 t2 = .ok (mkReport cfg []) ∧
    (mkReport cfg []).totals.overallEff = .nan ∧
    (mkReport cfg []).rows = [] := by
  refine ⟨?_, ?_, rfl⟩
  · unfold runPipeline
    rw [if_pos (And.intro h1 h2), hj, if_pos h3, if_pos h4]
    simp [extractAll, computeRows]
  · simp [mkReport, mkTotals, pyDiv, pyMulC]

/-- Witness for C6 (amended) at concrete disjoint-month inputs. -/
theorem C6_empty_join_no_error_witness :
    runPipeline exCfg zIrrT disjGenT = .ok (mkReport exCfg []) ∧
    (mkReport exCfg []).totals.overallEff = .nan ∧
    (mkReport exCfg []).rows = [] :=
  C6_empty_join_no_error exCfg zIrrT disjGenT
    (by simp [zIrrT]) (by simp [disjGenT])
    (by simp [mergedHeader, zIrrT, disjGenT])
    (by simp [mergedHeader, zIrrT, disjGenT])
    (by simp [rawMerge, zIrrT, disjGenT, rowMonth, getCell])

/-- **C6 (counterexample to the claim as stated)**: datasets whose
months are disjoint produce an empty join, yet the pipeline returns a
report (zero table rows, `nan` overall efficiency) instead of a
`ComputationError{empty-join}`. -/
theorem C6_counterexample :
    errOf (runPipeline exCfg zIrrT disjGenT) = none ∧
    (runPipeline exCfg zIrrT disjGenT).toOption.map
        (fun rep => (rep.rows, rep.totals.overallEff)) =
      some ([], PyFloat.nan) := by
  have hrun : runPipeline exCfg zIrrT disjGenT = .ok (mkReport exCfg []) := by
    norm_num +decide [runPipeline, zIrrT, disjGenT, mergedHeader, rawMerge, rowMonth, getCell,
      removeMonth, extractAll, computeRows]
  rw [hrun]
  refine ⟨rfl, ?_⟩
  show some ((mkReport exCfg []).rows, (mkReport exCfg []).totals.overallEff) =
    some ([], PyFloat.nan)
  simp [mkReport, mkTotals, pyDiv, pyMulC]

/-! ## Merge helper lemmas -/

theorem getCell_append (r1 r2 : Row) (c : String) :
    getCell (r1 ++ r2) c = (getCell r1 c).or (getCell r2 c) := by
  induction r1 with
  | nil => simp [getCell]
  | cons p t ih =>
    obtain ⟨k, v⟩ := p
    by_cases h : k = c <;> simp [getCell, h, ih]

theorem getCell_removeMonth (r : Row) : getCell (removeMonth r) "Month" = none := by
  induction r with
  | nil => simp [removeMonth, getCell]
  | cons p t ih =>
    obtain ⟨k, v⟩ := p
    by_cases h : k = "Month"
    · simpa [removeMonth, h] using ih
    · simpa [removeMonth, getCell, h] using ih

/-- The join key of a merged row is the left row's key: `pd.merge`
keeps the key column of the left frame. -/
theorem rowMonth_merge (r1 r2 : Row) :
    rowMonth (r1 ++ removeMonth r2) = rowMonth r1 := by
  simp only [rowMonth]
  rw [getCell_append, getCell_removeMonth]
  cases h : getCell r1 "Month" <;> simp [h]

theorem countP_replicate {α : Type} (p : α → Bool) (n : ℕ) (v : α) :
    (List.replicate n v).countP p = if p v then n else 0 := by
  induction n with
  | zero => simp
  | succ k ih =>
    by_cases h : p v <;>
      simp [List.replicate_succ, List.countP_cons, ih, h]

theorem countP_eq_of_nodup {α : Type} [DecidableEq α] (l : List α) (hn : l.Nodup) (v : α) :
    l.countP (fun x => x = v) = if v ∈ l then 1 else 0 := by
  induction l with
  | nil => simp
  | cons a t ih =>
    rw [List.nodup_cons] at hn
    by_cases hav : a = v
    · subst hav
      simp [List.countP_cons, ih hn.2, hn.1]
    · have hva : ¬v = a := fun h => hav h.symm
      simp [List.countP_cons, ih hn.2, hav, List.mem_cons, hva]

/-- The one-left-row slice of the merged frame: its key column repeats
the left row's key once per matching right row. -/
theorem rawMerge_inner_months (t2 : Table) (r1 : Row) :
    ((t2.rows.filter (fun r2 => rowMonth r2 = rowMonth r1)).map
        (fun r2 => r1 ++ removeMonth r2)).map rowMonth =
      List.replicate ((tableMonths t2).countP (fun x => x = rowMonth r1)) (rowMonth r1) := by
  rw [List.map_map]
  have hconst : (rowMonth ∘ fun r2 => r1 ++ removeMonth r2) = fun _ => rowMonth r1 :=
    funext fun r2 => rowMonth_merge r1 r2
  rw [hconst, List.map_const']
  congr 1
  rw [tableMonths, List.countP_map, List.countP_eq_length_filter]
  rfl

/-- The key column of the merged frame: the left keys in left order,
each repeated as many times as it occurs in the right frame. -/
theorem rawMerge_months (t1 t2 : Table) :
    (rawMerge t1 t2).map rowMonth =
      t1.rows.flatMap (fun r1 =>
        List.replicate ((tableMonths t2).countP (fun x => x = rowMonth r1)) (rowMonth r1)) := by
  rw [rawMerge, List.map_flatMap]
  exact congrArg _ (funext fun r1 => rawMerge_inner_months t2 r1)

/-- Every merged row's key occurs in both input key columns. -/
theorem rawMerge_mem_months (t1 t2 : Table) (r : Row) (h : r ∈ rawMerge t1 t2) :
    rowMonth r ∈ tableMonths t1 ∧ rowMonth r ∈ tableMonths t2 := by
  simp only [rawMerge, List.mem_flatMap, List.mem_map, List.mem_filter] at h
  obtain ⟨r1, h1, r2, ⟨h2, heq⟩, rfl⟩ := h
  rw [rowMonth_merge]
  constructor
  · exact List.mem_map.mpr ⟨r1, h1, rfl⟩
  · refine List.mem_map.mpr ⟨r2, h2, ?_⟩
    simpa using heq

theorem sum_map_ite_one {α : Type} (l : List α) (p : α → Prop) [DecidablePred p] :
    (l.map (fun a => if p a then 1 else 0)).sum = l.countP (fun a => p a) := by
  induction l with
  | nil => simp
  | cons a t ih =>
    by_cases h : p a <;> simp [List.countP_cons, ih, h, Nat.add_comm]

/-- With unique keys on both sides, the merged row count is the number
of keys common to both frames. -/
theorem rawMerge_length_nodup (t1 t2 : Table)
    (h1 : (tableMonths t1).Nodup) (h2 : (tableMonths t2).Nodup) :
    (rawMerge t1 t2).length =
      ((tableMonths t1).toFinset ∩ (tableMonths t2).toFinset).card := by
  have hlen : (rawMerge t1 t2).length = ((rawMerge t1 t2).map rowMonth).length :=
    (List.length_map _ _).symm
  rw [hlen, rawMerge_months, List.length_flatMap]
  have hmap : List.map (List.length ∘ fun r1 =>
      List.replicate ((tableMonths t2).countP (fun x => x = rowMonth r1)) (rowMonth r1)) t1.rows
      = List.map (fun r1 => if rowMonth r1 ∈ tableMonths t2 then 1 else 0) t1.rows := by
    refine List.map_congr_left (fun r1 _ => ?_)
    by_cases hm : rowMonth r1 ∈ tableMonths t2 <;>
      simp [countP_eq_of_nodup _ h2, hm]
  rw [hmap, sum_map_ite_one]
  have hc : t1.rows.countP (fun r1 => decide (rowMonth r1 ∈ tableMonths t2)) =
      (tableMonths t1).countP (fun x => decide (x ∈ tableMonths t2)) := by
    simp only [tableMonths]
    rw [List.countP_map]
    rfl
  rw [hc, List.countP_eq_length_filter]
  have hnf : ((tableMonths t1).filter (fun x => decide (x ∈ tableMonths t2))).Nodup :=
    h1.filter _
  rw [← List.Nodup.dedup hnf, ← List.card_toFinset, List.toFinset_filter]
  congr 1
  ext x
  simp

/-! ## Extraction and pipeline inversion lemmas -/

theorem extractSrcRow_month (r : Row) (s : SrcRow) (h : extractSrcRow r = some s) :
    rowMonth r = some s.month := by
  unfold extractSrcRow at h
  split at h
  · rename_i m i a hm hi ha
    injection h with h'
    rw [hm, ← h']
  · cases h

theorem extractAll_months (l : List Row) (src : List SrcRow) (h : extractAll l = some src) :
    src.map (fun s => some s.month) = l.map rowMonth := by
  induction l generalizing src with
  | nil =>
    simp [extractAll] at h
    subst h
    simp
  | cons r rs ih =>
    unfold extractAll at h
    cases he : extractSrcRow r with
    | none => rw [he] at h; simp at h
    | some s0 =>
      rw [he] at h
      cases ha : extractAll rs with
      | none => rw [ha] at h; simp at h
      | some ss =>
        rw [ha] at h
        simp only [Option.some.injEq] at h
        subst h
        simp [ih ss ha, extractSrcRow_month r s0 he]

theorem computeRows_months (cfg : PanelConfig) (src : List SrcRow) :
    (computeRows cfg src).map (fun r => r.month) = src.map (fun s => s.month) := by
  simp [computeRows, List.map_map]

/-- Inversion of a successful pipeline run: the report was assembled
from the extracted and derived merge result. -/
theorem runPipeline_ok_inv (cfg : PanelConfig) (t1 t2 : Table) (rep : Report)
    (h : runPipeline cfg t1 t2 = .ok rep) :
    ∃ src, extractAll (rawMerge t1 t2) = some src ∧
      rep = mkReport cfg (computeRows cfg src) := by
  unfold runPipeline at h
  split at h
  · split at h
    · split at h
      · split at h
        · rename_i src hex
          refine ⟨src, hex, ?_⟩
          injection h with h'
          exact h'.symm
        · cases h
      · cases h
    · cases h
  · cases h

/-- Evaluating the whole pipeline on the spec's scenario inputs. -/
theorem spec_scenario_run :
    runPipeline exCfg specIrrT specGenT = .ok (mkReport exCfg (computeRows exCfg specSrc)) := by
  norm_num +decide [runPipeline, specIrrT, specGenT, specSrc, mergedHeader, rawMerge, rowMonth,
    getCell, removeMonth, extractAll, extractSrcRow]

/-- **C3**: for datasets satisfying the data model (each row has a
period and periods are unique per dataset), the merge is an inner join
on the period: the merged row count is the number of periods present
in both datasets, and every merged row's period occurs in both. -/
theorem C3_inner_join (t1 t2 : Table)
    (h1 : (tableMonths t1).Nodup) (h2 : (tableMonths t2).Nodup)
    (_hw1 : ∀ r ∈ t1.rows, (rowMonth r).isSome) (_hw2 : ∀ r ∈ t2.rows, (rowMonth r).isSome) :
    (rawMerge t1 t2).length =
      ((tableMonths t1).toFinset ∩ (tableMonths t2).toFinset).card ∧
    ∀ r ∈ rawMerge t1 t2, rowMonth r ∈ tableMonths t1 ∧ rowMonth r ∈ tableMonths t2 :=
  ⟨rawMerge_length_nodup t1 t2 h1 h2, fun r hr => rawMerge_mem_months t1 t2 r hr⟩

/-- Witness for C3 at the spec scenario's tables. -/
theorem C3_inner_join_witness :
    (rawMerge specIrrT specGenT).length =
      ((tableMonths specIrrT).toFinset ∩ (tableMonths specGenT).toFinset).card ∧
    ∀ r ∈ rawMerge specIrrT specGenT,
      rowMonth r ∈ tableMonths specIrrT ∧ rowMonth r ∈ tableMonths specGenT :=
  C3_inner_join specIrrT specGenT (by decide) (by decide) (by decide) (by decide)

/-- **C8**: the join output lists the first (irradiance) dataset's
keys in their original order (each key grouped with its matches), the
report's rows carry exactly the merged keys in order, and both charts
and the paginated table present the rows in exactly that order. -/
theorem C8_join_and_artifact_order (cfg : PanelConfig) (t1 t2 : Table) (rep : Report)
    (h : runPipeline cfg t1 t2 = .ok rep) :
    (rawMerge t1 t2).map rowMonth =
      t1.rows.flatMap (fun r1 =>
        List.replicate ((tableMonths t2).countP (fun x => x = rowMonth r1)) (rowMonth r1)) ∧
    rep.rows.map (fun r => some r.month) = (rawMerge t1 t2).map rowMonth ∧
    rep.generationChart.map (fun b => b.month) = rep.rows.map (fun r => r.month) ∧
    rep.efficiencyChart.map (fun p => p.1) = rep.rows.map (fun r => r.month) ∧
    rep.pages.flatten = rep.rows := by
  obtain ⟨src, hex, rfl⟩ := runPipeline_ok_inv cfg t1 t2 rep h
  refine ⟨rawMerge_months t1 t2, ?_, ?_, ?_, tablePages_flatten _⟩
  · show (computeRows cfg src).map (fun r => some r.month) = _
    calc (computeRows cfg src).map (fun r => some r.month)
        = ((computeRows cfg src).map (fun r => r.month)).map some := by
          rw [List.map_map]; rfl
      _ = (src.map (fun s => s.month)).map some := by rw [computeRows_months]
      _ = src.map (fun s => some s.month) := by rw [List.map_map]; rfl
      _ = (rawMerge t1 t2).map rowMonth := extractAll_months _ src hex
  · show (genChart (computeRows cfg src)).map (fun b => b.month) =
      (computeRows cfg src).map (fun r => r.month)
    simp [genChart, mkBar, List.map_map]
  · show (effChart (computeRows cfg src)).map (fun p => p.1) =
      (computeRows cfg src).map (fun r => r.month)
    simp [effChart, List.map_map]

/-- Witness for C8 at the spec scenario. -/
theorem C8_join_and_artifact_order_witness :
    (rawMerge specIrrT specGenT).map rowMonth =
      specIrrT.rows.flatMap (fun r1 =>
        List.replicate ((tableMonths specGenT).countP (fun x => x = rowMonth r1))
          (rowMonth r1)) ∧
    (mkReport exCfg (computeRows exCfg specSrc)).rows.map (fun r => some r.month) =
      (rawMerge specIrrT specGenT).map rowMonth ∧
    (mkReport exCfg (computeRows exCfg specSrc)).generationChart.map (fun b => b.month) =
      (mkReport exCfg (computeRows exCfg specSrc)).rows.map (fun r => r.month) ∧
    (mkReport exCfg (computeRows exCfg specSrc)).efficiencyChart.map (fun p => p.1) =
      (mkReport exCfg (computeRows exCfg specSrc)).rows.map (fun r => r.month) ∧
    (mkReport exCfg (computeRows exCfg specSrc)).pages.flatten =
      (mkReport exCfg (computeRows exCfg specSrc)).rows :=
  C8_join_and_artifact_order exCfg specIrrT specGenT
    (mkReport exCfg (computeRows exCfg specSrc)) spec_scenario_run

/-- **C10**: a period occurring `a` times in the first dataset and `b`
times in the second yields `a * b` merged rows with that period (the
within-key cross product of `pd.merge`), and the derived rows, the
generation chart and the table pages all present one entry per merged
row — duplicates are neither dropped nor rejected. -/
theorem C10_duplicate_period_cross_product (t1 t2 : Table) (m : Cell)
    (cfg : PanelConfig) (src : List SrcRow) :
    ((rawMerge t1 t2).map rowMonth).countP (fun x => x = some m) =
      (tableMonths t1).countP (fun x => x = some m) *
        (tableMonths t2).countP (fun x => x = some m) ∧
    (computeRows cfg src).map (fun r => r.month) = src.map (fun s => s.month) ∧
    (genChart (computeRows cfg src)).map (fun b => b.month) = src.map (fun s => s.month) ∧
    (tablePages (computeRows cfg src)).flatten = computeRows cfg src := by
  refine ⟨?_, computeRows_months cfg src, ?_, tablePages_flatten _⟩
  · rw [rawMerge_months]
    have key : ∀ l : List Row,
        (l.flatMap (fun r1 =>
          List.replicate ((tableMonths t2).countP (fun x => x = rowMonth r1))
            (rowMonth r1))).countP (fun x => x = some m) =
        (l.map rowMonth).countP (fun x => x = some m) *
          (tableMonths t2).countP (fun x => x = some m) := by
      intro l
      induction l with
      | nil => simp
      | cons r1 rest ih =>
        rw [List.flatMap_cons, List.countP_append, ih, List.map_cons, List.countP_cons,
          countP_replicate]
        by_cases hm : rowMonth r1 = some m
        · simp only [hm, decide_True, if_true]
          ring
        · simp [hm]
    rw [tableMonths]
    exact key t1.rows
  · calc (genChart (computeRows cfg src)).map (fun b => b.month)
        = (computeRows cfg src).map (fun r => r.month) := by
          simp [genChart, mkBar, List.map_map]
      _ = src.map (fun s => s.month) := computeRows_months cfg src

/-- **C5 (amended)**: only the `Month` columns are validated at load
time.  A generation dataset lacking `ActualGeneration` passes loading;
the failure occurs in the computation stage when the column is
accessed (line 47), as a `KeyError` naming that column, caught by the
broad handler — and no report is produced. -/
theorem C5_missing_column_amended (cfg : PanelConfig) (t1 t2 : Table)
    (h1 : "Month" ∈ t1.header) (h2 : "Month" ∈ t2.header)
    (h3 : "Irradiance" ∈ mergedHeader t1 t2)
    (h4 : "ActualGeneration" ∉ mergedHeader t1 t2) :
    loadStage t1 t2 = .ok () ∧
    runPipeline cfg t1 t2 = .error (.keyError "ActualGeneration") := by
  constructor
  · unfold loadStage
    rw [if_pos (And.intro h1 h2)]
  · unfold runPipeline
    rw [if_pos (And.intro h1 h2), if_pos h3, if_neg h4]

/-- Witness for C5 (amended) at a generation table with columns
`Month, Generation` (no `ActualGeneration`). -/
theorem C5_missing_column_amended_witness :
    loadStage specIrrT noActGenT = .ok () ∧
    runPipeline exCfg specIrrT noActGenT = .error (.keyError "ActualGeneration") :=
  C5_missing_column_amended exCfg specIrrT noActGenT
    (by decide) (by decide) (by decide) (by decide)

/-- **C5 (counterexample to the claim as stated)**: with the
generation CSV lacking `ActualGeneration`, the load stage succeeds —
there is no `LoadError`; the pipeline fails only later, inside the
computation, with a `KeyError` naming the column. -/
theorem C5_counterexample :
    errOf (loadStage specIrrT noActGenT) = none ∧
    errOf (runPipeline exCfg specIrrT noActGenT) = some (.keyError "ActualGeneration") := by
  decide

/-- **C9**: the pipeline is deterministic — equal configurations and
equal input tables give syntactically equal reports (the embedding is
a pure function) — and the colour key of an actual-generation bar is a
pure function of that row's monthly efficiency; on finite values it
equals the efficiency clamped to `[0, 100]`, scaled to `[0, 1]`. -/
theorem C9_determinism_and_color (cfg cfg' : PanelConfig) (t1 t1' t2 t2' : Table)
    (hc : cfg = cfg') (h1 : t1 = t1') (h2 : t2 = t2')
    (r r' : MergedRow) (he : r.monthlyEfficiency = r'.monthlyEfficiency) (q : ℚ) :
    runPipeline cfg t1 t2 = runPipeline cfg' t1' t2' ∧
    (mkBar r).actualColorKey = (mkBar r').actualColorKey ∧
    npClip01 (pyDivC (.finite q) 100) = .finite (min 100 (max 0 q) / 100) := by
  subst hc h1 h2
  refine ⟨rfl, by simp [mkBar, he], ?_⟩
  simp only [pyDivC, npClip01, PyFloat.finite.injEq]
  have h100 : (0:ℚ) ≤ 100 := by norm_num
  rw [← min_div_div_right h100 100 (max 0 q), ← max_div_div_right h100 0 q]
  norm_num

/-- Witness for C9 at the spec scenario and a 250% efficiency row. -/
theorem C9_determinism_and_color_witness :
    runPipeline exCfg specIrrT specGenT = runPipeline exCfg specIrrT specGenT ∧
    (mkBar wRow).actualColorKey = (mkBar wRow).actualColorKey ∧
    npClip01 (pyDivC (.finite 250) 100) = .finite (min 100 (max 0 250) / 100) :=
  C9_determinism_and_color exCfg exCfg specIrrT specIrrT specGenT specGenT
    rfl rfl rfl wRow wRow rfl 250
